import Mathlib

/-!
Verification of the chat-orchestration core of the `ai-support-widget`
repository.  The definitions below are a shallow embedding of the
JavaScript sources:

* `src/backend-nodejs/services/openaiService.js` — `generateResponse`
  (message assembly, provider-error classification, fallback reply);
* `src/backend-nodejs/services/conversationService.js` —
  `saveConversation`, `getConversationHistory`,
  `updateConversationFeedback`;
* `src/backend-nodejs/routes/chat.js` — the `POST /message`,
  `POST /feedback` handlers, `generateSessionId`, `isValidUUID`, and the
  `chatLimiter` configuration;
* `src/widget/src/ChatWindow.jsx` / `ChatBubble.jsx` — the bot-message
  construction and confidence rendering.

External collaborators (the OpenAI client, the Sequelize store, the
express-rate-limit middleware, express-validator) are modelled as
explicit parameters: the provider call outcome, the database rows, the
pre-request counter and the validation verdict are inputs to the
embedded handlers, and the durable store is an explicit list of rows
threaded through each operation.
-/

/-- Token usage object as returned by `generateResponse`
(`openaiService.js`, lines 93-97 and 120-124). -/
structure Usage where
  prompt_tokens : Nat
  completion_tokens : Nat
  total_tokens : Nat
deriving DecidableEq, Repr

/-- A JavaScript `Error` as thrown / inspected by the services: a
`message` and an optional `code` property.  `new Error(msg)` produces an
error whose `code` property is not set, modelled as `code = none`. -/
structure JsError where
  message : String
  code : Option String
deriving DecidableEq, Repr

/-- The `context` object accepted by `POST /message` and consulted by
`generateResponse` (`openaiService.js`, lines 58-70): only the `page`
and `userAgent` fields are ever read. -/
structure Context where
  page : Option String
  userAgent : Option String
deriving DecidableEq, Repr

/-- One entry of the history list returned by `getConversationHistory`
(`conversationService.js`, lines 46-52). -/
structure HistEntry where
  userMessage : String
  aiResponse : String
  timestamp : Nat
  model : String
  tokens : Usage
deriving DecidableEq, Repr

/-- A row of the `conversations` table, following the Sequelize model in
`models/Conversation.js` (the `id` column and the `updatedAt` timestamp
play no role in any claim and are omitted from the row value; the full
column list is recorded separately in `conversationColumns`).
`createdAt` is the Sequelize-assigned insertion timestamp, modelled as a
natural number. -/
structure StoredRow where
  sessionId : String
  userMessage : String
  aiResponse : String
  userIp : String
  context : Context
  model : String
  tokens : Usage
  createdAt : Nat
  rating : Option Nat
  feedback : Option String
deriving DecidableEq, Repr

/-- The exact keys of the object literal passed to `Conversation.create`
by `saveConversation` (`conversationService.js`, lines 12-20). -/
def conversationCreateFields : List String :=
  [ "sessionId", "userMessage", "aiResponse", "userIp", "context",
    "model", "tokens" ]

/-- The columns of the `conversations` table: the fields declared in
`models/Conversation.js` plus the `createdAt` / `updatedAt` timestamps
Sequelize adds by default. -/
def conversationColumns : List String :=
  [ "id", "sessionId", "userMessage", "aiResponse", "userIp", "context",
    "model", "tokens", "rating", "feedback", "createdAt", "updatedAt" ]

/-- Outcome of the external OpenAI chat-completion call awaited at
`openaiService.js` line 75: either a completion (text, model, usage) or
a rejection carrying the optional `error.code` string. -/
inductive ProviderOutcome where
  | ok (text : String) (model : String) (usage : Usage)
  | err (code : Option String)
deriving DecidableEq, Repr

/-- Message roles used when assembling the provider request. -/
inductive Role where
  | system
  | user
  | assistant
deriving DecidableEq, Repr

/-- One entry of the `messages` array sent to the provider. -/
structure Msg where
  role : Role
  content : String
deriving DecidableEq, Repr

/-- The system prompt constant of `openaiService.js` (lines 10-25). -/
def SYSTEM_PROMPT : String :=
  "You are an intelligent customer support assistant for a modern web application. Your role is to:\n\n1. Provide helpful, accurate, and friendly responses to user inquiries\n2. Assist with technical questions about the application\n3. Guide users through common tasks and troubleshooting\n4. Escalate complex issues when appropriate\n5. Maintain a professional yet approachable tone\n\nGuidelines:\n- Be concise but thorough in your responses\n- Ask clarifying questions when needed\n- Provide step-by-step instructions for complex tasks\n- Acknowledge when you don\x27t know something\n- Always be helpful and solution-oriented\n\nContext: This is an AI Support Widget that can be embedded in any website to provide instant customer support."

/-- The fixed apologetic fallback text of `openaiService.js`
(line 118). -/
def FALLBACK_TEXT : String :=
  "I apologize, but I\x27m experiencing technical difficulties right now. Please try again in a moment, or contact our support team directly."

/-- `conversationHistory.slice(-10)` (`openaiService.js`, line 46): the
last ten entries of the list (the whole list when shorter). -/
def recentHistoryOf (conversationHistory : List HistEntry) : List HistEntry :=
  conversationHistory.drop (conversationHistory.length - 10)

/-- The user/assistant pair pushed for one history entry
(`openaiService.js`, lines 47-52). -/
def historyPair (msg : HistEntry) : List Msg :=
  [⟨Role.user, msg.userMessage⟩, ⟨Role.assistant, msg.aiResponse⟩]

/-- The system context notes pushed from `context.page` and
`context.userAgent` (`openaiService.js`, lines 58-70), in that order. -/
def contextNotes (context : Context) : List Msg :=
  (match context.page with
    | some p => [⟨Role.system, "User is currently on page: " ++ p⟩]
    | none => []) ++
  (match context.userAgent with
    | some ua => [⟨Role.system, "User\x27s browser: " ++ ua⟩]
    | none => [])

/-- The `messages` array assembled by `generateResponse`
(`openaiService.js`, lines 40-70), translated push by push: the single
system prompt, then for each of the last ten history entries a
user/assistant pair (via `forEach`, modelled as a fold), then the
current user message, then the context notes. -/
def buildMessages (userMessage : String) (conversationHistory : List HistEntry)
    (context : Context) : List Msg :=
  let messages := [(⟨Role.system, SYSTEM_PROMPT⟩ : Msg)]
  let recentHistory := recentHistoryOf conversationHistory
  let messages := recentHistory.foldl (fun acc msg => acc ++ historyPair msg) messages
  let messages := messages ++ [(⟨Role.user, userMessage⟩ : Msg)]
  let messages := messages ++ contextNotes context
  messages

/-- Result object of a successful `generateResponse` call
(`openaiService.js`, lines 90-98 and 117-125). -/
structure AIResult where
  text : String
  model : String
  usage : Usage
deriving DecidableEq, Repr

/-- The `catch` block of `generateResponse` (`openaiService.js`, lines
100-126): a caught error with code `insufficient_quota`,
`rate_limit_exceeded` or `invalid_api_key` is rethrown as a *plain*
`new Error(...)` — whose `code` property is not set — and every other
caught error produces the fallback result. -/
def generateResponseCatch (e : JsError) : Except JsError AIResult :=
  if e.code = some "insufficient_quota" then
    Except.error ⟨"OpenAI API quota exceeded", none⟩
  else if e.code = some "rate_limit_exceeded" then
    Except.error ⟨"OpenAI API rate limit exceeded", none⟩
  else if e.code = some "invalid_api_key" then
    Except.error ⟨"Invalid OpenAI API key", none⟩
  else
    Except.ok ⟨FALLBACK_TEXT, "fallback", ⟨0, 0, 0⟩⟩

set_option linter.unusedVariables false in
/-- `generateResponse` (`openaiService.js`, lines 34-127).  The `throw`
for a missing API key (line 37) sits inside the function's own `try`
block, so it is caught by the same `catch`; the outcome of the awaited
provider call is an explicit parameter.  A successful completion yields
the result object of lines 90-98; a rejection goes through the `catch`
block. -/
def generateResponse (apiKeyConfigured : Bool) (userMessage : String)
    (conversationHistory : List HistEntry) (context : Context)
    (outcome : ProviderOutcome) : Except JsError AIResult :=
  if apiKeyConfigured = false then
    generateResponseCatch ⟨"OpenAI API key not configured", none⟩
  else
    match outcome with
    | ProviderOutcome.ok text model usage => Except.ok ⟨text, model, usage⟩
    | ProviderOutcome.err code =>
        generateResponseCatch ⟨"OpenAI API error", code⟩

/-- The object the route hands to `saveConversation` (`chat.js`, lines
62-71). -/
structure ConversationData where
  sessionId : String
  userMessage : String
  aiResponse : String
  timestamp : Nat
  userIP : String
  context : Context
  model : String
  tokens : Usage
deriving DecidableEq, Repr

/-- `saveConversation` (`conversationService.js`, lines 10-28):
`Conversation.create` inserts one row with the fields of
`conversationCreateFields`; `createdAt` is assigned by the store at
insertion time (`now`).  On a store failure the function rethrows, which
is modelled at the call site (`postMessage`) by the `persistFailure`
parameter. -/
def saveConversation (store : List StoredRow) (d : ConversationData)
    (now : Nat) : List StoredRow :=
  store ++ [⟨d.sessionId, d.userMessage, d.aiResponse, d.userIP, d.context,
             d.model, d.tokens, now, none, none⟩]

/-- Stable insertion, ascending by `createdAt` (auxiliary for the
`ORDER BY createdAt ASC` of `getConversationHistory`). -/
def insertByTime (t : StoredRow) : List StoredRow → List StoredRow
  | [] => [t]
  | u :: rest =>
      if u.createdAt < t.createdAt then u :: insertByTime t rest
      else t :: u :: rest

/-- Stable sort ascending by `createdAt`. -/
def sortByTime : List StoredRow → List StoredRow
  | [] => []
  | t :: rest => insertByTime t (sortByTime rest)

/-- Projection of a stored row to a history entry
(`conversationService.js`, lines 46-52). -/
def toHistEntry (r : StoredRow) : HistEntry :=
  ⟨r.userMessage, r.aiResponse, r.createdAt, r.model, r.tokens⟩

/-- `getConversationHistory` (`conversationService.js`, lines 36-57):
`findAll` with `where: { sessionId }`, `order: [[createdAt, ASC]]` and
`limit` (default 50), then a field projection.  The `limit` applies to
the ascending order, so it keeps the *oldest* `limit` rows. -/
def getConversationHistory (store : List StoredRow) (sessionId : String)
    (limit : Nat := 50) : List HistEntry :=
  ((sortByTime (store.filter (fun r => r.sessionId = sessionId))).take limit).map
    toHistEntry

/-- The rows of a session in ascending `createdAt` order (no limit):
the reference against which the history window is compared. -/
def sessionRows (store : List StoredRow) (sessionId : String) : List StoredRow :=
  sortByTime (store.filter (fun r => r.sessionId = sessionId))

/-- The history that actually reaches the prompt for a session: the
route fetches `getConversationHistory(sessionId)` with the default
limit 50 (`chat.js`, line 55) and `generateResponse` then applies
`slice(-10)` (`openaiService.js`, line 46). -/
def promptHistory (store : List StoredRow) (sessionId : String) : List HistEntry :=
  recentHistoryOf (getConversationHistory store sessionId 50)

/-- The HTTP responses the `POST /message` handler can produce
(`chat.js`, lines 36-110). -/
inductive ChatHttpResponse where
  | validationFailed
  | success (response : String) (sessionId : String) (timestamp : Nat)
      (model : String) (usage : Usage)
  | quotaError
  | rateLimitError
  | serverError
deriving DecidableEq, Repr

/-- The HTTP status of each response of the handler. -/
def ChatHttpResponse.status : ChatHttpResponse → Nat
  | ChatHttpResponse.validationFailed => 400
  | ChatHttpResponse.success _ _ _ _ _ => 200
  | ChatHttpResponse.quotaError => 503
  | ChatHttpResponse.rateLimitError => 429
  | ChatHttpResponse.serverError => 500

/-- The `catch` handler of `POST /message` (`chat.js`, lines 87-109):
dispatches on `error.code`. -/
def chatCatchHandler (e : JsError) : ChatHttpResponse :=
  if e.code = some "insufficient_quota" then ChatHttpResponse.quotaError
  else if e.code = some "rate_limit_exceeded" then ChatHttpResponse.rateLimitError
  else ChatHttpResponse.serverError

/-- A `POST /message` request body plus the request IP. -/
structure ChatRequest where
  message : String
  sessionId : Option String
  context : Context
  ip : String
deriving DecidableEq, Repr

/-- The `POST /message` handler (`chat.js`, lines 36-110).  External
inputs: the express-validator verdict (`validationPassed`), whether an
API key is configured, the provider call outcome, whether (and how) the
`Conversation.create` call fails (`persistFailure`; `saveConversation`
rethrows the store error and the `await` sits inside the handler's
`try`, so a failure reaches the `catch` handler), the id produced by
`generateSessionId` when no session id is supplied, the store clock
`now`, and the current store.  Returns the response and the store after
the request. -/
def postMessage (req : ChatRequest) (validationPassed : Bool)
    (apiKeyConfigured : Bool) (outcome : ProviderOutcome)
    (persistFailure : Option JsError) (freshId : String) (now : Nat)
    (store : List StoredRow) : ChatHttpResponse × List StoredRow :=
  if validationPassed = false then
    (ChatHttpResponse.validationFailed, store)
  else
    let conversationHistory :=
      match req.sessionId with
      | some sid => getConversationHistory store sid 50
      | none => []
    match generateResponse apiKeyConfigured req.message conversationHistory
        req.context outcome with
    | Except.error e => (chatCatchHandler e, store)
    | Except.ok ai =>
        let sessionId := req.sessionId.getD freshId
        let conversationData : ConversationData :=
          ⟨sessionId, req.message, ai.text, now, req.ip, req.context,
           ai.model, ai.usage⟩
        match persistFailure with
        | some e => (chatCatchHandler e, store)
        | none =>
            (ChatHttpResponse.success ai.text sessionId now ai.model ai.usage,
             saveConversation store conversationData now)

/-- The response alternatives of `POST /feedback` (`chat.js`, lines
145-176). -/
inductive FeedbackResponse where
  | validationFailed
  | success
  | serverError
deriving DecidableEq, Repr

/-- HTTP status of each feedback response. -/
def FeedbackResponse.status : FeedbackResponse → Nat
  | FeedbackResponse.validationFailed => 400
  | FeedbackResponse.success => 200
  | FeedbackResponse.serverError => 500

set_option linter.unusedVariables false in
/-- The `POST /feedback` handler (`chat.js`, lines 145-176): after the
express-validator check it only logs the received values and returns the
success acknowledgement — it never touches the store and never calls
`updateConversationFeedback`. -/
def postFeedback (validationPassed : Bool) (sessionId : String) (rating : Nat)
    (feedback : Option String) (store : List StoredRow) :
    FeedbackResponse × List StoredRow :=
  if validationPassed = false then (FeedbackResponse.validationFailed, store)
  else (FeedbackResponse.success, store)

/-- The field update built by `updateConversationFeedback`
(`conversationService.js`, lines 146-147): `rating` is always set;
`feedback` only when truthy (so a `null` or empty string leaves the old
value). -/
def applyFeedback (r : StoredRow) (rating : Nat) (feedback : Option String) :
    StoredRow :=
  { r with
    rating := some rating,
    feedback :=
      match feedback with
      | some f => if f = "" then r.feedback else some f
      | none => r.feedback }

/-- `updateConversationFeedback` (`conversationService.js`, lines
144-170): `Conversation.update` with `where: { sessionId }`,
`order: [[createdAt, DESC]]`, `limit: 1` targets the most recently
created row of the session; when the session has no rows the function
throws `new Error('Conversation not found')` (a plain error, no code);
otherwise it returns the updated latest row. -/
def updateConversationFeedback (store : List StoredRow) (sessionId : String)
    (rating : Nat) (feedback : Option String) : Except JsError StoredRow :=
  match (sessionRows store sessionId).getLast? with
  | none => Except.error ⟨"Conversation not found", none⟩
  | some target => Except.ok (applyFeedback target rating feedback)

/-- `windowMs` of the `chatLimiter` configuration (`chat.js`, line
12). -/
def chatLimiterWindowMs : Nat := 60000

/-- `max` of the `chatLimiter` configuration (`chat.js`, line 13). -/
def chatLimiterMax : Nat := 10

/-- Modelled from the spec: the `express-rate-limit` middleware itself
is a dependency, not part of this repository; per the spec's RateLimiter
contract it keeps a per-client counter over the fixed window and lets a
request through exactly when the count of requests already seen from
that client in the current window is below the configured ceiling
(`max = 10` from the `chatLimiter` configuration). -/
def limiterAllows (priorCount : Nat) : Bool := priorCount < chatLimiterMax

/-- Outcome of a request at the `/message` entry point: rejected by the
limiter (the configured 429 message, the route handler never runs) or
handled by the route. -/
inductive LimitedOutcome where
  | limited
  | handled (resp : ChatHttpResponse)
deriving DecidableEq, Repr

/-- Whether an entry-point outcome reached the route handler. -/
def LimitedOutcome.isHandled : LimitedOutcome → Bool
  | LimitedOutcome.limited => false
  | LimitedOutcome.handled _ => true

/-- The per-request external inputs of one `/message` request. -/
structure ChatEnv where
  req : ChatRequest
  validationPassed : Bool
  apiKeyConfigured : Bool
  outcome : ProviderOutcome
  persistFailure : Option JsError
  freshId : String
  now : Nat

/-- One request through the `/message` entry point: the `chatLimiter`
middleware runs before the handler (`chat.js`, line 36), so a rejected
request short-circuits — the handler never runs, the store is untouched
and no provider call happens.  The third component records whether the
provider call was reached (it is skipped on validation failure and when
no API key is configured). -/
def chatEndpoint (priorCount : Nat) (env : ChatEnv) (store : List StoredRow) :
    LimitedOutcome × List StoredRow × Bool :=
  if limiterAllows priorCount then
    let r := postMessage env.req env.validationPassed env.apiKeyConfigured
      env.outcome env.persistFailure env.freshId env.now store
    (LimitedOutcome.handled r.1, r.2, env.validationPassed && env.apiKeyConfigured)
  else
    (LimitedOutcome.limited, store, false)

/-- A sequence of requests from one client address inside one rate
window: the middleware counts every request, so the counter increases by
one per request whether or not it was allowed. -/
def runWindow : Nat → List ChatEnv → List StoredRow →
    List LimitedOutcome × List StoredRow
  | _, [], store => ([], store)
  | count, env :: rest, store =>
      let r := chatEndpoint count env store
      let rs := runWindow (count + 1) rest r.2.1
      (r.1 :: rs.1, rs.2)

/-- The `data` object the widget reads off the `/chat` reply
(`ChatWindow.jsx`, lines 61-71): the fields it consults when building
the bot message. -/
structure ApiData where
  response : String
  type : Option String
  confidence : Option ℚ
deriving DecidableEq, Repr

/-- A widget chat message (the fields of `ChatWindow.jsx` messages that
the claims concern). -/
structure WidgetMessage where
  text : String
  isUser : Bool
  type : String
  confidence : Option ℚ
deriving DecidableEq, Repr

/-- The bot message built from a successful reply (`ChatWindow.jsx`,
lines 63-71): `text = data.response`, `type = data.type || 'bot'` (the
JavaScript `||` falls back on any falsy value, so also on the empty
string), and `confidence = data.confidence`, forwarded as-is. -/
def mkBotMessage (data : ApiData) : WidgetMessage :=
  ⟨data.response, false,
   (match data.type with
     | some t => if t = "" then "bot" else t
     | none => "bot"),
   data.confidence⟩

/-- `getConfidenceColor` (`ChatBubble.jsx`, lines 45-51):
`if (!confidence || isUser) return ''` — the JavaScript `!` also fires
on the falsy value `0` — then the 0.8 / 0.5 thresholds. -/
def getConfidenceColor (confidence : Option ℚ) (isUser : Bool) : String :=
  match confidence with
  | none => ""
  | some c =>
      if c = 0 ∨ isUser = true then ""
      else if c ≥ 8/10 then "high-confidence"
      else if c ≥ 5/10 then "medium-confidence"
      else "low-confidence"

/-- `shouldShowMetadata` (`ChatBubble.jsx`, lines 53-55). -/
def shouldShowMetadata (m : WidgetMessage) : Bool :=
  !m.isUser && m.type != "greeting" && m.confidence.isSome

/-- Hexadecimal digit as accepted by the `[0-9a-f]` groups (with the
`i` flag) of the UUID regular expression. -/
def isHexDigit (c : Char) : Bool :=
  (decide ('0' ≤ c) && decide (c ≤ '9')) ||
  (decide ('a' ≤ c) && decide (c ≤ 'f')) ||
  (decide ('A' ≤ c) && decide (c ≤ 'F'))

/-- `isValidUUID` (`chat.js`, lines 187-190): the anchored regular
expression `[0-9a-f]{8}-[0-9a-f]{4}-4[0-9a-f]{3}-[89ab][0-9a-f]{3}-
[0-9a-f]{12}` with the case-insensitive flag, translated position by
position over the 36 characters. -/
def isValidUUID (uuid : String) : Bool :=
  match uuid.data with
  | a0 :: a1 :: a2 :: a3 :: a4 :: a5 :: a6 :: a7 :: h1 ::
    b0 :: b1 :: b2 :: b3 :: h2 ::
    c0 :: c1 :: c2 :: c3 :: h3 ::
    d0 :: d1 :: d2 :: d3 :: h4 ::
    e0 :: e1 :: e2 :: e3 :: e4 :: e5 :: e6 :: e7 :: e8 :: e9 :: e10 :: e11 :: [] =>
      [a0, a1, a2, a3, a4, a5, a6, a7].all isHexDigit &&
      h1 == '-' &&
      [b0, b1, b2, b3].all isHexDigit &&
      h2 == '-' &&
      c0 == '4' && [c1, c2, c3].all isHexDigit &&
      h3 == '-' &&
      (d0 == '8' || d0 == '9' || d0 == 'a' || d0 == 'b' ||
       d0 == 'A' || d0 == 'B') &&
      [d1, d2, d3].all isHexDigit &&
      h4 == '-' &&
      [e0, e1, e2, e3, e4, e5, e6, e7, e8, e9, e10, e11].all isHexDigit
  | _ => false

/-- The template string of `generateSessionId` (`chat.js`, line
180). -/
def uuidTemplate : String := "xxxxxxxx-xxxx-4xxx-yxxx-xxxxxxxxxxxx"

/-- The `replace(/[xy]/g, ...)` of `generateSessionId` (`chat.js`,
lines 180-184): each `x` or `y` consumes the next random draw
`r = Math.random() * 16 | 0` (a value in `0..15`, modelled as
`draws i % 16`); an `x` becomes `r.toString(16)` and a `y` becomes
`(r & 0x3 | 0x8).toString(16)`; every other character is kept. -/
def replaceXY : List Char → (Nat → Nat) → Nat → List Char
  | [], _, _ => []
  | c :: cs, draws, i =>
      if c = 'x' then
        Nat.digitChar (draws i % 16) :: replaceXY cs draws (i + 1)
      else if c = 'y' then
        Nat.digitChar ((draws i % 16) &&& 3 ||| 8) :: replaceXY cs draws (i + 1)
      else
        c :: replaceXY cs draws i

/-- `generateSessionId` (`chat.js`, lines 179-185), parameterized by the
sequence of `Math.random()` draws. -/
def generateSessionId (draws : Nat → Nat) : String :=
  String.mk (replaceXY uuidTemplate.data draws 0)

/-- The composition order stated by the spec's PromptComposer contract,
written out for comparison with the code's `buildMessages`: (1) the
system policy message, (2) the history turns as user/assistant pairs
oldest first, (3) the system context notes, (4) the new user message
last.  This definition follows the spec's words, not the source. -/
def composeSpecOrder (userMessage : String)
    (conversationHistory : List HistEntry) (context : Context) : List Msg :=
  [(⟨Role.system, SYSTEM_PROMPT⟩ : Msg)] ++
    (recentHistoryOf conversationHistory).flatMap historyPair ++
    contextNotes context ++ [(⟨Role.user, userMessage⟩ : Msg)]

/-- A concrete per-request environment used by witnesses: a valid
request with a working provider and store. -/
def oneChatEnv : ChatEnv :=
  ⟨⟨"Hi", none, ⟨none, none⟩, "1.2.3.4"⟩, true, true,
   ProviderOutcome.ok "Hello!" "gpt-3.5-turbo" ⟨5, 3, 8⟩, none,
   "00000000-0000-4000-8000-000000000000", 0⟩

/-! ### Helper lemmas about the embedded store operations -/

/-- Ascending-time relation between stored rows. -/
def timeLE (a b : StoredRow) : Prop := a.createdAt ≤ b.createdAt

theorem length_insertByTime (t : StoredRow) (l : List StoredRow) :
    (insertByTime t l).length = l.length + 1 := by
  induction l with
  | nil => rfl
  | cons u rest ih =>
      by_cases hc : u.createdAt < t.createdAt
      · simp [insertByTime, hc, ih]
      · simp [insertByTime, hc]

theorem length_sortByTime (l : List StoredRow) :
    (sortByTime l).length = l.length := by
  induction l with
  | nil => rfl
  | cons t rest ih => simp [sortByTime, length_insertByTime, ih]

theorem mem_insertByTime {a t : StoredRow} {l : List StoredRow} :
    a ∈ insertByTime t l ↔ a = t ∨ a ∈ l := by
  induction l with
  | nil => simp [insertByTime]
  | cons u rest ih =>
      by_cases hc : u.createdAt < t.createdAt
      · simp [insertByTime, hc, ih]
        tauto
      · simp [insertByTime, hc]

theorem mem_sortByTime {a : StoredRow} {l : List StoredRow} :
    a ∈ sortByTime l ↔ a ∈ l := by
  induction l with
  | nil => simp [sortByTime]
  | cons t rest ih =>
      simp [sortByTime, mem_insertByTime, ih]

theorem chain'_insertByTime {t : StoredRow} {l : List StoredRow}
    (h : List.Chain' timeLE l) : List.Chain' timeLE (insertByTime t l) := by
  induction l with
  | nil => simp [insertByTime]
  | cons u rest ih =>
      by_cases hc : u.createdAt < t.createdAt
      · simp only [insertByTime, if_pos hc]
        refine List.chain'_cons'.2 ⟨?_, ih h.tail⟩
        intro b hb
        cases rest with
        | nil =>
            simp [insertByTime] at hb
            subst hb
            exact Nat.le_of_lt hc
        | cons v vs =>
            by_cases hv : v.createdAt < t.createdAt
            · simp only [insertByTime, if_pos hv, List.head?_cons,
                Option.mem_def, Option.some.injEq] at hb
              subst hb
              exact (List.chain'_cons.1 h).1
            · simp only [insertByTime, if_neg hv, List.head?_cons,
                Option.mem_def, Option.some.injEq] at hb
              subst hb
              exact Nat.le_of_lt hc
      · simp only [insertByTime, if_neg hc]
        refine List.chain'_cons'.2 ⟨?_, h⟩
        intro b hb
        simp only [List.head?_cons, Option.mem_def, Option.some.injEq] at hb
        subst hb
        exact Nat.le_of_not_lt hc

theorem chain'_sortByTime (l : List StoredRow) :
    List.Chain' timeLE (sortByTime l) := by
  induction l with
  | nil => simp [sortByTime]
  | cons t rest ih => exact chain'_insertByTime ih

/-- The history list returned by `getConversationHistory` is in
non-decreasing `timestamp` order. -/
theorem chain'_getConversationHistory (store : List StoredRow)
    (sessionId : String) (limit : Nat) :
    List.Chain' (fun a b => a.timestamp ≤ b.timestamp)
      (getConversationHistory store sessionId limit) := by
  unfold getConversationHistory
  apply (List.chain'_map toHistEntry).2
  exact ((chain'_sortByTime _).take limit).imp (fun a b hab => hab)

/-- The accumulator form of the history `forEach` push loop. -/
theorem foldl_historyPair (l : List HistEntry) (init : List Msg) :
    l.foldl (fun acc msg => acc ++ historyPair msg) init =
      init ++ l.flatMap historyPair := by
  induction l generalizing init with
  | nil => simp
  | cons m rest ih => simp [ih, List.append_assoc]

/-- Every `Except.error` coming out of the `catch` block of
`generateResponse` carries a fresh `new Error(...)` whose `code`
property is not set. -/
theorem generateResponseCatch_error (e e2 : JsError)
    (h : generateResponseCatch e = Except.error e2) : e2.code = none := by
  unfold generateResponseCatch at h
  by_cases h1 : e.code = some "insufficient_quota"
  · rw [if_pos h1] at h
    injection h with hx
    subst hx
    rfl
  · rw [if_neg h1] at h
    by_cases h2 : e.code = some "rate_limit_exceeded"
    · rw [if_pos h2] at h
      injection h with hx
      subst hx
      rfl
    · rw [if_neg h2] at h
      by_cases h3 : e.code = some "invalid_api_key"
      · rw [if_pos h3] at h
        injection h with hx
        subst hx
        rfl
      · rw [if_neg h3] at h
        exact absurd h (by simp)

/-! ### C1 -/

/-- C1: the claim states that a provider failure classified
`insufficient_quota` yields HTTP 503 and one classified
`rate_limit_exceeded` yields HTTP 429.  The code cannot do this: every
`Except.error` produced by `generateResponse` is a rethrown plain
`new Error(...)` whose `code` property is not set (first conjunct), so
the `error.code` dispatch of the route's catch handler never matches and
both classified failures reach the generic 500 branch (second and third
conjuncts, evaluating the full handler on concrete requests). -/
theorem c1_provider_error_codes_lost :
    (∀ (apiKeyConfigured : Bool) (userMessage : String)
        (conversationHistory : List HistEntry) (context : Context)
        (outcome : ProviderOutcome) (e : JsError),
        generateResponse apiKeyConfigured userMessage conversationHistory
          context outcome = Except.error e → e.code = none)
    ∧ (postMessage ⟨"Hi", none, ⟨none, none⟩, "1.2.3.4"⟩ true true
        (ProviderOutcome.err (some "insufficient_quota")) none
        "00000000-0000-4000-8000-000000000000" 0 []).1.status = 500
    ∧ (postMessage ⟨"Hi", none, ⟨none, none⟩, "1.2.3.4"⟩ true true
        (ProviderOutcome.err (some "rate_limit_exceeded")) none
        "00000000-0000-4000-8000-000000000000" 0 []).1.status = 500 := by
  refine ⟨?_, rfl, rfl⟩
  intro ak um ch ctx outcome e h
  cases ak with
  | false =>
      exact generateResponseCatch_error ⟨"OpenAI API key not configured", none⟩ e h
  | true =>
      cases outcome with
      | ok t m u => simp [generateResponse] at h
      | err code =>
          exact generateResponseCatch_error ⟨"OpenAI API error", code⟩ e h

/-- Witness for C1: the first conjunct applied at a concrete
quota-exceeded failure. -/
theorem c1_provider_error_codes_lost_witness :
    generateResponse true "Hi" [] ⟨none, none⟩
      (ProviderOutcome.err (some "insufficient_quota")) =
      Except.error ⟨"OpenAI API quota exceeded", none⟩
    ∧ (JsError.mk "OpenAI API quota exceeded" none).code = none :=
  ⟨rfl, c1_provider_error_codes_lost.1 true "Hi" [] ⟨none, none⟩
    (ProviderOutcome.err (some "insufficient_quota")) _ rfl⟩

/-! ### C2 -/

/-- C2 counterexample: on a generic (unclassified) provider failure the
endpoint does return 200 with the fixed apologetic text,
`model = "fallback"` and all-zero usage, and a turn is persisted — but
the claim's final conjunct, that the turn is persisted with
`type = "error"`, is false: the persisted record (shown in full) has no
`type` field at all — neither the object passed to
`Conversation.create` nor the `conversations` table has one. -/
theorem c2_no_type_field_counterexample :
    (postMessage ⟨"Hi", none, ⟨none, none⟩, "1.2.3.4"⟩ true true
        (ProviderOutcome.err none) none
        "00000000-0000-4000-8000-000000000000" 7 []).1 =
      ChatHttpResponse.success FALLBACK_TEXT
        "00000000-0000-4000-8000-000000000000" 7 "fallback" ⟨0, 0, 0⟩
    ∧ (postMessage ⟨"Hi", none, ⟨none, none⟩, "1.2.3.4"⟩ true true
        (ProviderOutcome.err none) none
        "00000000-0000-4000-8000-000000000000" 7 []).2 =
      [⟨"00000000-0000-4000-8000-000000000000", "Hi", FALLBACK_TEXT,
        "1.2.3.4", ⟨none, none⟩, "fallback", ⟨0, 0, 0⟩, 7, none, none⟩]
    ∧ ¬ ("type" ∈ conversationCreateFields ∨ "type" ∈ conversationColumns) :=
  ⟨rfl, rfl, by decide⟩

/-- C2 amended: for every valid `POST /chat` request during which the
provider call fails in an unclassified way, the endpoint responds 200
with the fixed apologetic text, `model = "fallback"` and all-zero
usage, and a turn recording the exchange is still persisted — carrying
`model = "fallback"`; no `type` field exists on persisted turns, so no
`type = "error"` is recorded. -/
theorem c2_fallback_response_amended (req : ChatRequest)
    (store : List StoredRow) (freshId : String) (now : Nat) :
    postMessage req true true (ProviderOutcome.err none) none freshId now
        store =
      (ChatHttpResponse.success FALLBACK_TEXT (req.sessionId.getD freshId) now
        "fallback" ⟨0, 0, 0⟩,
       store ++ [⟨req.sessionId.getD freshId, req.message, FALLBACK_TEXT,
         req.ip, req.context, "fallback", ⟨0, 0, 0⟩, now, none, none⟩]) :=
  rfl

/-! ### C3 -/

/-- C3 counterexample: a request during which the provider call
succeeds but the persistence write fails does *not* get the computed
reply: `saveConversation` rethrows and the `await` sits in the same
`try` block as the response, so the catch handler answers with 500 and
the store is left unchanged.  Evaluated on a concrete request whose
provider call returned "Hello!" and whose store write failed with an
ordinary connection error. -/
theorem c3_persistence_failure_counterexample :
    (postMessage ⟨"Hi", none, ⟨none, none⟩, "1.2.3.4"⟩ true true
        (ProviderOutcome.ok "Hello!" "gpt-3.5-turbo" ⟨5, 3, 8⟩)
        (some ⟨"connect ECONNREFUSED", none⟩)
        "00000000-0000-4000-8000-000000000000" 7 []).1 =
      ChatHttpResponse.serverError
    ∧ ChatHttpResponse.serverError.status = 500
    ∧ (postMessage ⟨"Hi", none, ⟨none, none⟩, "1.2.3.4"⟩ true true
        (ProviderOutcome.ok "Hello!" "gpt-3.5-turbo" ⟨5, 3, 8⟩)
        (some ⟨"connect ECONNREFUSED", none⟩)
        "00000000-0000-4000-8000-000000000000" 7 []).2 = [] :=
  ⟨rfl, rfl, rfl⟩

/-- C3 amended: when the provider call succeeds but the persistence
write fails, the already-computed reply is *not* returned; the catch
handler responds instead — 500 for any persistence error whose `code`
is not one of the two provider codes the handler recognizes — and no
turn is persisted. -/
theorem c3_persistence_failure_amended (req : ChatRequest)
    (store : List StoredRow) (text model : String) (usage : Usage)
    (e : JsError) (freshId : String) (now : Nat)
    (hq : e.code ≠ some "insufficient_quota")
    (hr : e.code ≠ some "rate_limit_exceeded") :
    postMessage req true true (ProviderOutcome.ok text model usage) (some e)
        freshId now store = (ChatHttpResponse.serverError, store) := by
  simp [postMessage, generateResponse, chatCatchHandler, hq, hr]

/-- Witness for C3 amended: a concrete store failure with an ordinary
error code. -/
theorem c3_persistence_failure_amended_witness :
    ((some "ECONNREFUSED" : Option String) ≠ some "insufficient_quota"
      ∧ (some "ECONNREFUSED" : Option String) ≠ some "rate_limit_exceeded")
    ∧ postMessage ⟨"Hi", none, ⟨none, none⟩, "1.2.3.4"⟩ true true
        (ProviderOutcome.ok "Hello!" "gpt-3.5-turbo" ⟨5, 3, 8⟩)
        (some ⟨"connect ECONNREFUSED", some "ECONNREFUSED"⟩)
        "00000000-0000-4000-8000-000000000000" 7 [] =
        (ChatHttpResponse.serverError, []) :=
  ⟨⟨by decide, by decide⟩,
   c3_persistence_failure_amended _ _ _ _ _ _ _ _ (by decide) (by decide)⟩

/-! ### C4 -/

set_option maxRecDepth 40000 in
/-- C4 counterexample: a session holding 51 turns (timestamps 0..50).
`getConversationHistory` keeps the *oldest* 50 rows (ascending order,
then `limit`), and the subsequent `slice(-10)` therefore yields the
turns with timestamps 40..49 — not the 10 newest of the whole session
(41..50), refuting the claim's "regardless of how many turns are
retained in storage" part. -/
theorem c4_window_counterexample :
    (promptHistory ((List.range 51).map (fun i =>
        ⟨"s", "u", "a", "ip", ⟨none, none⟩, "m", ⟨0, 0, 0⟩, i, none, none⟩))
        "s").map (fun e => e.timestamp) =
      [40, 41, 42, 43, 44, 45, 46, 47, 48, 49]
    ∧ (promptHistory ((List.range 51).map (fun i =>
        ⟨"s", "u", "a", "ip", ⟨none, none⟩, "m", ⟨0, 0, 0⟩, i, none, none⟩))
        "s").map (fun e => e.timestamp) ≠
      [41, 42, 43, 44, 45, 46, 47, 48, 49, 50] := by
  decide

/-- C4 amended: the history used to build a prompt is the last 10 of
the *oldest `limit` = 50* turns of the session; for a session retaining
at most 50 turns this coincides with the claim — the most recent 10
turns of the whole session, in ascending time order. -/
theorem c4_window_amended (store : List StoredRow) (sid : String)
    (h : (store.filter (fun r => r.sessionId = sid)).length ≤ 50) :
    promptHistory store sid =
      recentHistoryOf ((sessionRows store sid).map toHistEntry)
    ∧ List.Chain' (fun a b => a.timestamp ≤ b.timestamp)
        (promptHistory store sid) := by
  constructor
  · unfold promptHistory getConversationHistory sessionRows
    rw [List.take_of_length_le (by rw [length_sortByTime]; exact h)]
  · unfold promptHistory recentHistoryOf
    exact (chain'_getConversationHistory store sid 50).drop _

/-- Witness for C4 amended: a two-turn session. -/
theorem c4_window_amended_witness :
    (([⟨"s", "u1", "a1", "ip", ⟨none, none⟩, "m", ⟨0, 0, 0⟩, 1, none, none⟩,
       ⟨"s", "u2", "a2", "ip", ⟨none, none⟩, "m", ⟨0, 0, 0⟩, 2, none, none⟩]
        : List StoredRow).filter (fun r => r.sessionId = "s")).length ≤ 50
    ∧ (promptHistory
        [⟨"s", "u1", "a1", "ip", ⟨none, none⟩, "m", ⟨0, 0, 0⟩, 1, none, none⟩,
         ⟨"s", "u2", "a2", "ip", ⟨none, none⟩, "m", ⟨0, 0, 0⟩, 2, none, none⟩]
        "s" =
        recentHistoryOf ((sessionRows
          [⟨"s", "u1", "a1", "ip", ⟨none, none⟩, "m", ⟨0, 0, 0⟩, 1, none, none⟩,
           ⟨"s", "u2", "a2", "ip", ⟨none, none⟩, "m", ⟨0, 0, 0⟩, 2, none, none⟩]
          "s").map toHistEntry)
      ∧ List.Chain' (fun a b => a.timestamp ≤ b.timestamp)
          (promptHistory
            [⟨"s", "u1", "a1", "ip", ⟨none, none⟩, "m", ⟨0, 0, 0⟩, 1, none, none⟩,
             ⟨"s", "u2", "a2", "ip", ⟨none, none⟩, "m", ⟨0, 0, 0⟩, 2, none, none⟩]
            "s")) :=
  ⟨by decide, c4_window_amended _ _ (by decide)⟩

/-! ### C5 -/

set_option maxRecDepth 40000 in
/-- C5 counterexample: with a context carrying a `page` field, the
assembled message sequence differs from the spec's order — the code
pushes the context notes *after* the new user message, so the last
message is the system context note, not the user message. -/
theorem c5_order_counterexample :
    buildMessages "Hi" [] ⟨some "/pricing", none⟩ ≠
      composeSpecOrder "Hi" [] ⟨some "/pricing", none⟩
    ∧ (buildMessages "Hi" [] ⟨some "/pricing", none⟩).getLast? =
      some ⟨Role.system, "User is currently on page: /pricing"⟩ := by
  decide

/-- C5 amended: the produced message sequence is ordered exactly as
(1) the single system policy message, (2) the history turns as
user/assistant pairs oldest first, (3) the new user message, (4) the
system context notes appended last; the groups are never reordered or
interleaved, but the new user message precedes the context notes
instead of coming last. -/
theorem c5_order_amended (userMessage : String)
    (conversationHistory : List HistEntry) (context : Context) :
    buildMessages userMessage conversationHistory context =
      [(⟨Role.system, SYSTEM_PROMPT⟩ : Msg)] ++
        (recentHistoryOf conversationHistory).flatMap historyPair ++
        [(⟨Role.user, userMessage⟩ : Msg)] ++ contextNotes context := by
  simp only [buildMessages]
  rw [foldl_historyPair]

/-! ### C6 -/

/-- C6: the claim is right about the intended contract and the code is
a stub: the `POST /feedback` route validates, logs and acknowledges
with 200 — it never touches the store and never calls
`updateConversationFeedback` (last conjunct: the store after any
feedback request is unchanged), even for a session with no persisted
turns, where the service function it should call would raise
`Conversation not found`. -/
theorem c6_feedback_route_noop :
    postFeedback true "00000000-0000-4000-8000-000000000000" 5 none [] =
      (FeedbackResponse.success, [])
    ∧ FeedbackResponse.success.status = 200
    ∧ updateConversationFeedback [] "00000000-0000-4000-8000-000000000000"
        5 none = Except.error ⟨"Conversation not found", none⟩
    ∧ (∀ (v : Bool) (sid : String) (rating : Nat) (fb : Option String)
        (store : List StoredRow), (postFeedback v sid rating fb store).2 = store) := by
  refine ⟨rfl, rfl, rfl, ?_⟩
  intro v sid rating fb store
  cases v <;> rfl

/-! ### C7 -/

/-- Whether the `i`-th request of a window reaches the route handler
depends only on the counter value at that request. -/
theorem runWindow_outcome_handled (count : Nat) (envs : List ChatEnv)
    (store : List StoredRow) (i : Nat) (hi : i < envs.length) :
    ((runWindow count envs store).1.getD i LimitedOutcome.limited).isHandled =
      limiterAllows (count + i) := by
  induction envs generalizing count store i with
  | nil => simp at hi
  | cons env rest ih =>
      cases i with
      | zero =>
          unfold runWindow chatEndpoint
          by_cases hl : limiterAllows count <;>
            simp [hl, LimitedOutcome.isHandled]
      | succ j =>
          unfold runWindow
          simp only [List.getD_cons_succ]
          rw [ih _ _ j (by simpa using hi)]
          congr 1
          omega

/-- The number of requests that pass the limiter in one window starting
from counter value `count`. -/
theorem runWindow_handled_count (count : Nat) (envs : List ChatEnv)
    (store : List StoredRow) :
    ((runWindow count envs store).1.countP LimitedOutcome.isHandled) =
      min envs.length (chatLimiterMax - count) := by
  induction envs generalizing count store with
  | nil => simp [runWindow]
  | cons env rest ih =>
      unfold runWindow chatEndpoint
      by_cases hl : limiterAllows count
      · rw [if_pos hl]
        simp only [List.countP_cons, LimitedOutcome.isHandled, if_pos]
        rw [ih]
        unfold limiterAllows at hl
        simp only [decide_eq_true_eq] at hl
        simp only [List.length_cons]
        omega
      · rw [if_neg hl]
        simp only [List.countP_cons, LimitedOutcome.isHandled,
          Bool.false_eq_true, if_false]
        rw [ih]
        unfold limiterAllows at hl
        simp only [decide_eq_true_eq, Nat.not_lt] at hl
        simp only [List.length_cons]
        omega

/-- C7: with the `chatLimiter` configuration (`max = 10` per 60-second
window per client address), (a) a request arriving when the window
counter has reached the ceiling is rejected before the handler runs —
the store is unchanged and no provider call happens; (b) among the
requests of one window exactly `min n 10` pass the limiter; (c) the
11th request of a window (index 10) is rejected. -/
theorem c7_rate_limiter :
    (∀ (priorCount : Nat) (env : ChatEnv) (store : List StoredRow),
        chatLimiterMax ≤ priorCount →
        chatEndpoint priorCount env store =
          (LimitedOutcome.limited, store, false))
    ∧ (∀ (envs : List ChatEnv) (store : List StoredRow),
        ((runWindow 0 envs store).1.countP LimitedOutcome.isHandled) =
          min envs.length 10)
    ∧ (∀ (envs : List ChatEnv) (store : List StoredRow),
        10 < envs.length →
        (runWindow 0 envs store).1.getD 10 LimitedOutcome.limited =
          LimitedOutcome.limited) := by
  refine ⟨?_, ?_, ?_⟩
  · intro priorCount env store h
    unfold chatEndpoint limiterAllows
    rw [if_neg]
    simp only [decide_eq_true_eq]
    omega
  · intro envs store
    exact runWindow_handled_count 0 envs store
  · intro envs store hlen
    have h := runWindow_outcome_handled 0 envs store 10 hlen
    cases ho : (runWindow 0 envs store).1.getD 10 LimitedOutcome.limited with
    | limited => rfl
    | handled r =>
        rw [ho] at h
        simp [LimitedOutcome.isHandled, limiterAllows, chatLimiterMax] at h

/-- Witness for C7: the ceiling case and the 11th request of a window
of 11 identical requests. -/
theorem c7_rate_limiter_witness :
    chatLimiterMax ≤ 10
    ∧ chatEndpoint 10 oneChatEnv [] = (LimitedOutcome.limited, [], false)
    ∧ 10 < (List.replicate 11 oneChatEnv).length
    ∧ (runWindow 0 (List.replicate 11 oneChatEnv) []).1.getD 10
        LimitedOutcome.limited = LimitedOutcome.limited :=
  ⟨by decide, c7_rate_limiter.1 10 oneChatEnv [] (by decide),
   by simp, c7_rate_limiter.2.2 (List.replicate 11 oneChatEnv) [] (by simp)⟩

/-! ### C8 -/

/-- C8: a save-then-fetch round trip is the identity on the
`userMessage` / `aiResponse` fields — for any store in which the
session retains fewer than the 50-row fetch limit, the turn just
persisted appears in the fetched history with exactly the persisted
texts — and every fetched history list is in non-decreasing
`createdAt` (`timestamp`) order. -/
theorem c8_roundtrip_and_order :
    (∀ (store : List StoredRow) (d : ConversationData) (now : Nat),
        (store.filter (fun r => r.sessionId = d.sessionId)).length < 50 →
        ∃ e ∈ getConversationHistory (saveConversation store d now)
            d.sessionId 50,
          e.userMessage = d.userMessage ∧ e.aiResponse = d.aiResponse)
    ∧ (∀ (store : List StoredRow) (sid : String) (limit : Nat),
        List.Chain' (fun a b => a.timestamp ≤ b.timestamp)
          (getConversationHistory store sid limit)) := by
  constructor
  · intro store d now h
    refine ⟨toHistEntry ⟨d.sessionId, d.userMessage, d.aiResponse, d.userIP,
      d.context, d.model, d.tokens, now, none, none⟩, ?_, rfl, rfl⟩
    unfold getConversationHistory saveConversation
    have hfil : (store ++ [(⟨d.sessionId, d.userMessage, d.aiResponse,
        d.userIP, d.context, d.model, d.tokens, now, none, none⟩ :
          StoredRow)]).filter (fun r => r.sessionId = d.sessionId) =
        store.filter (fun r => r.sessionId = d.sessionId) ++
          [⟨d.sessionId, d.userMessage, d.aiResponse, d.userIP, d.context,
            d.model, d.tokens, now, none, none⟩] := by
      rw [List.filter_append]
      simp
    rw [hfil]
    have hlen : (sortByTime (store.filter (fun r => r.sessionId = d.sessionId)
        ++ [⟨d.sessionId, d.userMessage, d.aiResponse, d.userIP, d.context,
          d.model, d.tokens, now, none, none⟩])).length ≤ 50 := by
      rw [length_sortByTime, List.length_append, List.length_singleton]
      omega
    rw [List.take_of_length_le hlen]
    exact List.mem_map_of_mem toHistEntry (mem_sortByTime.2 (by simp))
  · intro store sid limit
    exact chain'_getConversationHistory store sid limit

/-- Witness for C8: saving one turn into an empty store and fetching
it back. -/
theorem c8_roundtrip_and_order_witness :
    (([] : List StoredRow).filter (fun r => r.sessionId = "s")).length < 50
    ∧ ∃ e ∈ getConversationHistory
        (saveConversation []
          ⟨"s", "hello", "world", 9, "1.2.3.4", ⟨none, none⟩,
           "gpt-3.5-turbo", ⟨1, 2, 3⟩⟩ 9) "s" 50,
        e.userMessage = "hello" ∧ e.aiResponse = "world" :=
  ⟨by decide,
   c8_roundtrip_and_order.1 []
     ⟨"s", "hello", "world", 9, "1.2.3.4", ⟨none, none⟩,
      "gpt-3.5-turbo", ⟨1, 2, 3⟩⟩ 9 (by decide)⟩

/-! ### C9 -/

/-- C9 counterexample: a reply carrying a provider-path confidence of
3/2 is forwarded by the widget with that very value attached — no
clamping to [0,1] happens — refuting the claim; the rendering path
even badges the out-of-range value as "high-confidence". -/
theorem c9_confidence_counterexample :
    ¬ (∀ c : ℚ, (mkBotMessage ⟨"Sure.", none, some (3 / 2)⟩).confidence =
        some c → 0 ≤ c ∧ c ≤ 1)
    ∧ getConfidenceColor (some (3 / 2)) false = "high-confidence" := by
  constructor
  · intro hcl
    have h := hcl (3 / 2) rfl
    have hlt : ¬ ((3 : ℚ) / 2 ≤ 1) := by norm_num
    exact hlt h.2
  · norm_num [getConfidenceColor]

/-- C9 amended: the confidence attached to the displayed response is
exactly the provider-supplied value, with no clamping applied; it lies
within [0,1] precisely when the supplied value already does. -/
theorem c9_confidence_amended (data : ApiData) :
    (mkBotMessage data).confidence = data.confidence
    ∧ (∀ c : ℚ, data.confidence = some c → 0 ≤ c → c ≤ 1 →
        ∃ c2 : ℚ, (mkBotMessage data).confidence = some c2 ∧
          0 ≤ c2 ∧ c2 ≤ 1) := by
  refine ⟨rfl, ?_⟩
  intro c hc h0 h1
  exact ⟨c, by simp [mkBotMessage, hc], h0, h1⟩

/-- Witness for C9 amended: a supplied confidence of 1/2. -/
theorem c9_confidence_amended_witness :
    ((⟨"ok", none, some (1 / 2)⟩ : ApiData).confidence = some (1 / 2)
      ∧ (0 : ℚ) ≤ 1 / 2 ∧ (1 : ℚ) / 2 ≤ 1)
    ∧ ∃ c2 : ℚ, (mkBotMessage ⟨"ok", none, some (1 / 2)⟩).confidence =
        some c2 ∧ 0 ≤ c2 ∧ c2 ≤ 1 :=
  ⟨⟨rfl, by norm_num, by norm_num⟩,
   (c9_confidence_amended ⟨"ok", none, some (1 / 2)⟩).2 (1 / 2) rfl
     (by norm_num) (by norm_num)⟩

/-! ### C10 -/

/-- A random nibble always renders as a hexadecimal digit. -/
theorem hexDigit_mod16 (n : Nat) :
    isHexDigit (Nat.digitChar (n % 16)) = true := by
  have h : n % 16 < 16 := Nat.mod_lt _ (by norm_num)
  have aux : ∀ m : Fin 16, isHexDigit (Nat.digitChar m.val) = true := by decide
  exact aux ⟨n % 16, h⟩

/-- The variant nibble `(r & 0x3 | 0x8)` always renders as one of
`8`, `9`, `a`, `b`. -/
theorem variant_mod16 (n : Nat) :
    (Nat.digitChar ((n % 16) &&& 3 ||| 8) == '8'
      || Nat.digitChar ((n % 16) &&& 3 ||| 8) == '9'
      || Nat.digitChar ((n % 16) &&& 3 ||| 8) == 'a'
      || Nat.digitChar ((n % 16) &&& 3 ||| 8) == 'b'
      || Nat.digitChar ((n % 16) &&& 3 ||| 8) == 'A'
      || Nat.digitChar ((n % 16) &&& 3 ||| 8) == 'B') = true := by
  have h : n % 16 < 16 := Nat.mod_lt _ (by norm_num)
  have aux : ∀ m : Fin 16,
      (Nat.digitChar (m.val &&& 3 ||| 8) == '8'
        || Nat.digitChar (m.val &&& 3 ||| 8) == '9'
        || Nat.digitChar (m.val &&& 3 ||| 8) == 'a'
        || Nat.digitChar (m.val &&& 3 ||| 8) == 'b'
        || Nat.digitChar (m.val &&& 3 ||| 8) == 'A'
        || Nat.digitChar (m.val &&& 3 ||| 8) == 'B') = true := by decide
  exact aux ⟨n % 16, h⟩

set_option maxRecDepth 40000 in
/-- Symbolic evaluation of the template replacement: the 31 `x`/`y`
slots consume draws 0..30 in order; the four dashes and the literal
`4` are kept. -/
theorem replaceXY_uuidTemplate (draws : Nat → Nat) :
    replaceXY uuidTemplate.data draws 0 =
      [Nat.digitChar (draws 0 % 16), Nat.digitChar (draws 1 % 16),
       Nat.digitChar (draws 2 % 16), Nat.digitChar (draws 3 % 16),
       Nat.digitChar (draws 4 % 16), Nat.digitChar (draws 5 % 16),
       Nat.digitChar (draws 6 % 16), Nat.digitChar (draws 7 % 16), '-',
       Nat.digitChar (draws 8 % 16), Nat.digitChar (draws 9 % 16),
       Nat.digitChar (draws 10 % 16), Nat.digitChar (draws 11 % 16), '-',
       '4', Nat.digitChar (draws 12 % 16), Nat.digitChar (draws 13 % 16),
       Nat.digitChar (draws 14 % 16), '-',
       Nat.digitChar ((draws 15 % 16) &&& 3 ||| 8),
       Nat.digitChar (draws 16 % 16), Nat.digitChar (draws 17 % 16),
       Nat.digitChar (draws 18 % 16), '-',
       Nat.digitChar (draws 19 % 16), Nat.digitChar (draws 20 % 16),
       Nat.digitChar (draws 21 % 16), Nat.digitChar (draws 22 % 16),
       Nat.digitChar (draws 23 % 16), Nat.digitChar (draws 24 % 16),
       Nat.digitChar (draws 25 % 16), Nat.digitChar (draws 26 % 16),
       Nat.digitChar (draws 27 % 16), Nat.digitChar (draws 28 % 16),
       Nat.digitChar (draws 29 % 16), Nat.digitChar (draws 30 % 16)] := rfl

set_option maxRecDepth 40000 in
/-- C10: for every sequence of random draws, the string produced by
`generateSessionId` matches the UUID-v4 shape accepted by
`isValidUUID` — 8-4-4-4-12 hex groups, version nibble `4`, variant
nibble in `{8, 9, a, b}` — so a freshly generated session id always
passes the `GET /history/:sessionId` validation. -/
theorem c10_generated_id_valid (draws : Nat → Nat) :
    isValidUUID (generateSessionId draws) = true := by
  unfold generateSessionId
  rw [replaceXY_uuidTemplate]
  simp only [isValidUUID, List.all_cons, List.all_nil, hexDigit_mod16]
  simp [hexDigit_mod16, variant_mod16 15, variant_mod16]
